import Mathlib

/-!
Verification of the warehouse barcode manager (`barcode_manager.py`).

The development shallowly embeds the deterministic core of the program:
symbology selection (`generate_barcode`, lines 58-82), label composition
(`generate_label`, lines 84-166), the bulk label driver
(`bulk_generate_labels`, lines 168-210), the synthetic terminal bar pattern
(`display_barcode_ascii`, lines 264-287) and the QR terminal rasterizer
(`display_qr_code_terminal`, lines 318-356).  Strings are modelled by Lean
`String` (a sequence of code points, like Python `str`; character
classification predicates are the ASCII ones).  Filesystem effects are
modelled as the ordered list of file paths written by a call.
-/

/-- An inventory item: one row of the catalog CSV (`load_items`). -/
structure Item where
  item_id : String
  name : String
  category : String
  quantity : String
  unit_price : String
  barcode : String
  expiry_date : Option String := none
deriving Repr, DecidableEq

/-- The two symbologies the program can select
(`barcode.get_barcode_class('ean13' | 'code128')`). -/
inductive BarcodeClass where
  | ean13
  | code128
deriving Repr, DecidableEq

/-- Symbology selection, lines 69-75 of `generate_barcode`:
if the raw value has length 12 or 13 pick EAN-13 (truncating a 13-character
value to its first 12 characters), otherwise pick Code 128 with the value
unchanged. -/
def selectSymbology (barcode_value : String) : BarcodeClass × String :=
  if barcode_value.length = 12 ∨ barcode_value.length = 13 then
    let v := if barcode_value.length = 13 then barcode_value.take 12 else barcode_value
    (BarcodeClass.ean13, v)
  else
    (BarcodeClass.code128, barcode_value)

/-- Modelled from the spec: the external barcode encoder (the `python-barcode`
library, not part of this repository).  Encoding "fails with `EncodingError`
if encodedValue contains characters illegal for the selected symbology
(e.g., non-digit in FixedNumeric)": EAN-13 accepts only digits, Code 128
accepts ASCII. -/
def encodeOk : BarcodeClass → String → Bool
  | BarcodeClass.ean13, v => v.data.all Char.isDigit
  | BarcodeClass.code128, v => v.data.all fun c => decide (c.toNat < 128)

/-- The path `generate_barcode` saves to: `f"{output_dir}/{item_id}"` with the
default `output_dir='barcodes'` (line 78). -/
def barcodePath (item : Item) : String := "barcodes/" ++ item.item_id

/-- `generate_barcode` (lines 58-82): select the symbology, run the external
encoder, and on success save the image at `barcodePath`.  The result pairs the
returned path (or the propagated encoding error) with the list of file paths
written; the encoder raises before any file is saved, so a failing call
writes nothing. -/
def generate_barcode (item : Item) : Except String String × List String :=
  let sel := selectSymbology item.barcode
  if encodeOk sel.1 sel.2 then
    (Except.ok (barcodePath item), [barcodePath item])
  else
    (Except.error ("EncodingError: " ++ item.barcode), [])

/-- Line 159 of `generate_label`: keep alphanumerics, spaces, hyphens and
underscores; every other character becomes an underscore. -/
def safe_name (name : String) : String :=
  String.mk (name.data.map fun c =>
    if c.isAlphanum || c = ' ' || c = '-' || c = '_' then c else '_')

/-- Line 161: `safe_name[:20] if len(safe_name) > 20 else safe_name`. -/
def short_name (s : String) : String :=
  if s.length > 20 then s.take 20 else s

/-- Line 163: `f"{output_dir}/label_{item_id}_{short_name}_{barcode_value}.png"`
with the default `output_dir='labels'`; `barcode_value` here is the raw
`item['barcode']` (line 95), not the value truncated inside
`generate_barcode`. -/
def labelPath (item : Item) : String :=
  "labels/label_" ++ item.item_id ++ "_" ++ short_name (safe_name item.name) ++
    "_" ++ item.barcode ++ ".png"

/-- `generate_label` (lines 84-166): compose the label in memory, call
`generate_barcode` (line 142) — an exception there propagates before
`label.save` (line 164) runs — and only then save the label at `labelPath`.
The write list holds the file paths written, in order. -/
def generate_label (item : Item) : Except String String × List String :=
  match generate_barcode item with
  | (Except.error e, w) => (Except.error e, w)
  | (Except.ok _, w) => (Except.ok (labelPath item), w ++ [labelPath item])

/-- Python `str.lower()`: per-character lowercasing. -/
def pyLower (s : String) : String := String.mk (s.data.map Char.toLower)

/-- Lines 174-179 of `bulk_generate_labels`: the items the driver will
process.  `if category_filter:` is Python truthiness, so the case-insensitive
category filter is applied only for a non-empty filter string; with no filter
— or an empty-string filter — the whole catalog is processed. -/
def items_to_process (items : List Item) (filt : Option String) : List Item :=
  match filt with
  | none => items
  | some f =>
      if f = "" then items
      else items.filter fun it => pyLower it.category == pyLower f

/-- One iteration of the loop at lines 196-203: `generate_label` is invoked
on the item (it is recorded as attempted in the first component); on success
its path is appended to the result list, on exception the loop continues. -/
def bulk_step (acc : List Item × List String) (it : Item) : List Item × List String :=
  match (generate_label it).1 with
  | Except.ok p => (acc.1 ++ [it], acc.2 ++ [p])
  | Except.error _ => (acc.1 ++ [it], acc.2)

/-- The generation loop of `bulk_generate_labels` (lines 195-203), returning
the attempted items and the collected label paths. -/
def bulk_loop (toProcess : List Item) : List Item × List String :=
  toProcess.foldl bulk_step ([], [])

/-- `bulk_generate_labels` (lines 168-210): filter the catalog, return `None`
when nothing was selected (`return` with no value, lines 183-185), otherwise
run the loop and return the collected label paths. -/
def bulk_generate_labels (items : List Item) (filt : Option String) :
    Option (List String) :=
  let toProcess := items_to_process items filt
  if toProcess.length = 0 then none
  else some (bulk_loop toProcess).2

/-- Line 277 of `display_barcode_ascii`:
`int(char) if char.isdigit() else ord(char) % 10`. -/
def charDigit (c : Char) : Nat :=
  if c.isDigit then c.toNat - 48 else c.toNat % 10

/-- Line 270: `hash_value = sum(ord(c) for c in barcode_value)`. -/
def hash_value (s : String) : Nat := (s.data.map Char.toNat).sum

/-- Lines 276-281: the data-bar section for one character —
`"█" * bar_width + " " * space_width` with
`bar_width = 1 + ((digit + hash_value) % 3)` and
`space_width = 1 + (digit % 2)`. -/
def dataBar (hash : Nat) (c : Char) : String :=
  let digit := charDigit c
  let bar_width := 1 + ((digit + hash) % 3)
  let space_width := 1 + (digit % 2)
  String.mk (List.replicate bar_width '█') ++ String.mk (List.replicate space_width ' ')

/-- Lines 264-287: the synthetic terminal bar pattern — the start marker, one
data-bar section per character, the stop marker, joined
(`bar_pattern = "".join(pattern)`). -/
def bar_pattern (barcode_value : String) : String :=
  String.join
    (["█ █"] ++ barcode_value.data.map (dataBar (hash_value barcode_value)) ++ ["█ █"])

/-- Line 344 of `display_qr_code_terminal`: `chars = ["  ", "██"]`. -/
def chars : List String := ["  ", "██"]

/-- Lines 329-338: the output dimensions of the QR terminal raster.  The
source image (of arbitrary size) is resized to the fixed 40×40 grid, then
`new_width = 80` and `new_height = int(aspect_ratio * new_width * 0.55)` with
`aspect_ratio = height/width` of that intermediate grid (the float `0.55` is
modelled as the rational `55/100`; both evaluations truncate to 44). -/
def qr_display_dims (_srcW _srcH : Nat) : Nat × Nat :=
  let size := (40, 40)
  let width := size.1
  let height := size.2
  let aspect_ratio : ℚ := (height : ℚ) / (width : ℚ)
  let nw : Nat := 80
  let nh : Nat := (aspect_ratio * (nw : ℚ) * (55 / 100)).floor.toNat
  (nw, nh)

/-- Line 348, inner comprehension: the glyph row starting at pixel index `i`,
`chars[pixels[i+j] // 128]` for `j in range(new_width)`. -/
def qr_row (pixels : List Nat) (nw i : Nat) : List String :=
  (List.range nw).map fun j => chars.getD (pixels.getD (i + j) 0 / 128) ""

/-- Lines 347-348: `for i in range(0, len(pixels), new_width)` — the printed
glyph grid, one row per stride of `new_width` pixels. -/
def qr_grid (pixels : List Nat) (nw : Nat) : List (List String) :=
  ((List.range ((pixels.length + nw - 1) / nw)).map (· * nw)).map (qr_row pixels nw)

/-- C1: for every non-empty string whose shape is not "length 12 or 13 and
all digits", selection is claimed to choose Code 128.  Counterexample: a
12-character all-letter value is not of that shape, yet the code (line 69)
tests only the length and chooses EAN-13. -/
theorem C1_counterexample :
    "AAAAAAAAAAAA".length = 12 ∧
    "AAAAAAAAAAAA".data.all Char.isDigit = false ∧
    (selectSymbology "AAAAAAAAAAAA").1 = BarcodeClass.ean13 ∧
    BarcodeClass.ean13 ≠ BarcodeClass.code128 := by
  refine ⟨rfl, by decide, rfl, by decide⟩

/-- C1 (amended): selection looks only at the length.  Code 128 is chosen,
with the value unchanged, exactly when the length is neither 12 nor 13;
whenever the length is 12 or 13 EAN-13 is chosen regardless of whether the
characters are digits (a non-digit value then fails in the encoder, not in
selection). -/
theorem C1_selection_by_length_only (s : String) :
    ((selectSymbology s).1 = BarcodeClass.code128 ↔ ¬(s.length = 12 ∨ s.length = 13)) ∧
    (¬(s.length = 12 ∨ s.length = 13) → selectSymbology s = (BarcodeClass.code128, s)) := by
  unfold selectSymbology
  by_cases h : s.length = 12 ∨ s.length = 13 <;> simp [h]

/-- C1 witness: at length 2 the amended claim's hypothesis holds and Code 128
is selected with the value unchanged. -/
theorem C1_selection_by_length_only_witness :
    ((selectSymbology "AB").1 = BarcodeClass.code128 ↔ ¬("AB".length = 12 ∨ "AB".length = 13)) ∧
    (¬("AB".length = 12 ∨ "AB".length = 13) →
      selectSymbology "AB" = (BarcodeClass.code128, "AB")) :=
  C1_selection_by_length_only "AB"

/-- C2: for every raw value of length 12 or 13 consisting only of digits,
selection chooses EAN-13 and the encoded value has length exactly 12: the
string itself at length 12, its first 12 characters at length 13. -/
theorem C2_fixed_numeric_length_twelve (s : String)
    (hlen : s.length = 12 ∨ s.length = 13) (_hdig : s.data.all Char.isDigit = true) :
    selectSymbology s =
      (BarcodeClass.ean13, if s.length = 13 then s.take 12 else s) ∧
    (selectSymbology s).2.length = 12 := by
  have hsel : selectSymbology s =
      (BarcodeClass.ean13, if s.length = 13 then s.take 12 else s) := by
    unfold selectSymbology
    simp [hlen]
  refine ⟨hsel, ?_⟩
  rw [hsel]
  rcases hlen with h12 | h13
  · have h13 : ¬ s.length = 13 := by omega
    simp only [h13, if_false]
    exact h12
  · simp only [h13, if_true]
    rw [← String.length_data, String.data_take, List.length_take, String.length_data]
    omega

/-- C2 witness: the 12-digit value `"012345678905"` is selected as EAN-13
unchanged, with encoded length 12. -/
theorem C2_fixed_numeric_length_twelve_witness :
    selectSymbology "012345678905" =
      (BarcodeClass.ean13,
        if "012345678905".length = 13 then "012345678905".take 12 else "012345678905") ∧
    (selectSymbology "012345678905").2.length = 12 :=
  C2_fixed_numeric_length_twelve "012345678905" (Or.inl rfl) (by decide)

/-- Helper: `short_name` always equals taking the first 20 characters. -/
theorem short_name_eq_take (s : String) : short_name s = s.take 20 := by
  unfold short_name
  by_cases h : s.length > 20
  · simp [h]
  · simp only [h, if_false]
    apply String.ext
    rw [String.data_take]
    refine (List.take_of_length_le ?_).symm
    rw [String.length_data]
    omega

/-- C5: on success, `generate_label` returns the path
`labels/label_<item_id>_<short_name>_<raw_barcode>.png`, where the short name
is the sanitized item name truncated to its first 20 characters
(sanitize-then-truncate), and the barcode segment is the raw value. -/
theorem C5_label_path_format (item : Item) (p : String)
    (h : (generate_label item).1 = Except.ok p) :
    p = "labels/label_" ++ item.item_id ++ "_" ++ (safe_name item.name).take 20 ++
      "_" ++ item.barcode ++ ".png" := by
  have hp : p = labelPath item := by
    unfold generate_label at h
    rcases hb : generate_barcode item with ⟨r, w⟩
    rw [hb] at h
    cases r with
    | error e => simp at h
    | ok q =>
      simp at h
      exact h.symm
  rw [hp, labelPath, short_name_eq_take]

set_option maxRecDepth 4000 in
/-- C5 witness: a concrete item whose name is sanitized and truncated. -/
theorem C5_label_path_format_witness :
    (generate_label
        { item_id := "A001", name := "Widget #1 with a very long name", category := "Tools",
          quantity := "4", unit_price := "9.99", barcode := "012345678905" }).1 =
      Except.ok ("labels/label_A001_Widget _1 with a ver_012345678905.png") ∧
    ("labels/label_A001_Widget _1 with a ver_012345678905.png" : String) =
      "labels/label_" ++ "A001" ++ "_" ++
        (safe_name "Widget #1 with a very long name").take 20 ++ "_" ++
        "012345678905" ++ ".png" := by
  refine ⟨rfl, ?_⟩
  exact C5_label_path_format
    { item_id := "A001", name := "Widget #1 with a very long name", category := "Tools",
      quantity := "4", unit_price := "9.99", barcode := "012345678905" }
    "labels/label_A001_Widget _1 with a ver_012345678905.png" rfl

/-- C4: if the barcode generation inside label composition fails, the same
error propagates out of `generate_label` and no file is written at the label
output path. -/
theorem C4_label_not_written_on_failure (item : Item) (e : String)
    (h : (generate_barcode item).1 = Except.error e) :
    (generate_label item).1 = Except.error e ∧
    labelPath item ∉ (generate_label item).2 := by
  cases hok : encodeOk (selectSymbology item.barcode).1 (selectSymbology item.barcode).2 with
  | true =>
    exfalso
    unfold generate_barcode at h
    simp [hok] at h
  | false =>
    have hres : generate_barcode item =
        (Except.error ("EncodingError: " ++ item.barcode), []) := by
      unfold generate_barcode
      simp [hok]
    have hlab : generate_label item =
        (Except.error ("EncodingError: " ++ item.barcode), []) := by
      unfold generate_label
      rw [hres]
    rw [hres] at h
    simp at h
    rw [hlab]
    simp [h]

/-- C4 witness: a 12-character non-digit barcode is routed to EAN-13 and
rejected by the encoder; the label is not written. -/
theorem C4_label_not_written_on_failure_witness :
    (generate_barcode
        { item_id := "B002", name := "Bolt", category := "Hardware",
          quantity := "2", unit_price := "1.50", barcode := "AAAAAAAAAAAA" }).1 =
      Except.error "EncodingError: AAAAAAAAAAAA" ∧
    ((generate_label
        { item_id := "B002", name := "Bolt", category := "Hardware",
          quantity := "2", unit_price := "1.50", barcode := "AAAAAAAAAAAA" }).1 =
      Except.error "EncodingError: AAAAAAAAAAAA" ∧
    labelPath
        { item_id := "B002", name := "Bolt", category := "Hardware",
          quantity := "2", unit_price := "1.50", barcode := "AAAAAAAAAAAA" } ∉
      (generate_label
        { item_id := "B002", name := "Bolt", category := "Hardware",
          quantity := "2", unit_price := "1.50", barcode := "AAAAAAAAAAAA" }).2) := by
  refine ⟨rfl, ?_⟩
  exact C4_label_not_written_on_failure
    { item_id := "B002", name := "Bolt", category := "Hardware",
      quantity := "2", unit_price := "1.50", barcode := "AAAAAAAAAAAA" }
    "EncodingError: AAAAAAAAAAAA" rfl

/-- Helper: the barcode image path and the label path always differ (they
live under different directories). -/
theorem barcodePath_ne_labelPath (item : Item) : barcodePath item ≠ labelPath item := by
  intro h
  have h1 : (barcodePath item).data.head? = some 'b' := by
    simp only [barcodePath, String.data_append]
    rfl
  have h2 : (labelPath item).data.head? = some 'l' := by
    simp only [labelPath, String.data_append]
    rfl
  rw [h, h2] at h1
  exact absurd h1 (by decide)

/-- C10: every successful `generate_label` call also writes the barcode image
at `barcodes/<item_id>` (line 142 regenerates it unconditionally, with no
cache), so composing the same item twice writes that barcode path twice. -/
theorem C10_barcode_rewritten_each_label (item : Item) (p : String)
    (h : (generate_label item).1 = Except.ok p) :
    barcodePath item ∈ (generate_label item).2 ∧
    ((generate_label item).2 ++ (generate_label item).2).count (barcodePath item) = 2 := by
  cases hok : encodeOk (selectSymbology item.barcode).1 (selectSymbology item.barcode).2 with
  | false =>
    exfalso
    unfold generate_label generate_barcode at h
    simp [hok] at h
  | true =>
    have hres : generate_barcode item =
        (Except.ok (barcodePath item), [barcodePath item]) := by
      unfold generate_barcode
      simp [hok]
    have hlab : generate_label item =
        (Except.ok (labelPath item), [barcodePath item, labelPath item]) := by
      unfold generate_label
      rw [hres]
      rfl
    rw [hlab]
    refine ⟨by simp, ?_⟩
    have hne := barcodePath_ne_labelPath item
    simp [List.count_append, List.count_cons, hne]

/-- C10 witness: one concrete successful composition writes the barcode path,
and two compositions write it twice. -/
theorem C10_barcode_rewritten_each_label_witness :
    (generate_label
        { item_id := "A001", name := "Widget", category := "Tools",
          quantity := "4", unit_price := "9.99", barcode := "012345678905" }).1 =
      Except.ok (labelPath
        { item_id := "A001", name := "Widget", category := "Tools",
          quantity := "4", unit_price := "9.99", barcode := "012345678905" }) ∧
    (barcodePath
        { item_id := "A001", name := "Widget", category := "Tools",
          quantity := "4", unit_price := "9.99", barcode := "012345678905" } ∈
      (generate_label
        { item_id := "A001", name := "Widget", category := "Tools",
          quantity := "4", unit_price := "9.99", barcode := "012345678905" }).2 ∧
    ((generate_label
        { item_id := "A001", name := "Widget", category := "Tools",
          quantity := "4", unit_price := "9.99", barcode := "012345678905" }).2 ++
      (generate_label
        { item_id := "A001", name := "Widget", category := "Tools",
          quantity := "4", unit_price := "9.99", barcode := "012345678905" }).2).count
        (barcodePath
          { item_id := "A001", name := "Widget", category := "Tools",
            quantity := "4", unit_price := "9.99", barcode := "012345678905" }) = 2) := by
  refine ⟨rfl, ?_⟩
  exact C10_barcode_rewritten_each_label
    { item_id := "A001", name := "Widget", category := "Tools",
      quantity := "4", unit_price := "9.99", barcode := "012345678905" }
    (labelPath
      { item_id := "A001", name := "Widget", category := "Tools",
        quantity := "4", unit_price := "9.99", barcode := "012345678905" })
    rfl

/-- Helper: the bulk loop attempts every selected item in order and collects
exactly the successful label paths. -/
theorem bulk_loop_foldl (l : List Item) (a : List Item) (b : List String) :
    l.foldl bulk_step (a, b) =
      (a ++ l, b ++ l.filterMap fun it => ((generate_label it).1).toOption) := by
  induction l generalizing a b with
  | nil => simp
  | cons x xs ih =>
    rw [List.foldl_cons]
    cases hx : (generate_label x).1 with
    | ok p =>
      have hstep : bulk_step (a, b) x = (a ++ [x], b ++ [p]) := by
        unfold bulk_step
        rw [hx]
      rw [hstep, ih]
      simp [List.filterMap_cons, hx, Except.toOption]
    | error e =>
      have hstep : bulk_step (a, b) x = (a ++ [x], b) := by
        unfold bulk_step
        rw [hx]
      rw [hstep, ih]
      simp [List.filterMap_cons, hx, Except.toOption]

/-- Helper: closed form of the bulk loop. -/
theorem bulk_loop_eq (l : List Item) :
    bulk_loop l = (l, l.filterMap fun it => ((generate_label it).1).toOption) := by
  unfold bulk_loop
  rw [bulk_loop_foldl]
  simp

/-- C3 counterexample: the claim fails for the empty-string filter.  With a
one-item catalog of category `"Tools"` and filter `""`, no item's category
matches `""` case-insensitively, yet Python truthiness disables the filter
and the driver attempts the item: one item attempted, zero items matching. -/
theorem C3_counterexample :
    (bulk_loop (items_to_process
        [{ item_id := "A001", name := "Widget", category := "Tools",
           quantity := "4", unit_price := "9.99", barcode := "012345678905" }]
        (some ""))).1.length = 1 ∧
    (([{ item_id := "A001", name := "Widget", category := "Tools",
         quantity := "4", unit_price := "9.99", barcode := "012345678905" }] : List Item).filter
      fun it => pyLower it.category == pyLower "").length = 0 := by
  constructor
  · rfl
  · rfl

/-- C3 (amended): the driver attempts exactly the selected items in catalog
order — the items whose category matches a non-empty filter
case-insensitively, or the whole catalog when the filter is absent or the
empty string (Python truthiness) — a per-item failure is recorded and does
not prevent later items from being attempted, and the succeeded paths all
come from attempted items, whose number equals the number selected. -/
theorem C3_bulk_driver_properties (items : List Item) (filt : Option String) :
    (bulk_loop (items_to_process items filt)).1 = items_to_process items filt ∧
    (∀ f, filt = some f → f ≠ "" →
      items_to_process items filt =
        items.filter fun it => pyLower it.category == pyLower f) ∧
    (filt = none ∨ filt = some "" → items_to_process items filt = items) ∧
    (∀ p ∈ (bulk_loop (items_to_process items filt)).2,
      ∃ it ∈ (bulk_loop (items_to_process items filt)).1,
        (generate_label it).1 = Except.ok p) ∧
    (bulk_loop (items_to_process items filt)).1.length =
      (items_to_process items filt).length := by
  rw [bulk_loop_eq]
  refine ⟨rfl, ?_, ?_, ?_, rfl⟩
  · intro f hf hne
    rw [hf]
    unfold items_to_process
    simp [hne]
  · intro hf
    rcases hf with hf | hf <;> rw [hf] <;> simp [items_to_process]
  · intro p hp
    simp only at hp
    rcases List.mem_filterMap.mp hp with ⟨it, hit, hok⟩
    refine ⟨it, hit, ?_⟩
    cases hx : (generate_label it).1 with
    | ok q =>
      rw [hx] at hok
      simp [Except.toOption] at hok
      rw [hok]
    | error e =>
      rw [hx] at hok
      simp [Except.toOption] at hok

/-- C3 witness: a concrete two-item catalog with a `"tools"` filter — the
matching item is attempted and succeeds. -/
theorem C3_bulk_driver_properties_witness :
    ((bulk_loop (items_to_process
        [{ item_id := "A001", name := "Widget", category := "Tools",
           quantity := "4", unit_price := "9.99", barcode := "012345678905" },
         { item_id := "B002", name := "Bolt", category := "Hardware",
           quantity := "2", unit_price := "1.50", barcode := "ABC123" }]
        (some "tools"))).1 =
      items_to_process
        [{ item_id := "A001", name := "Widget", category := "Tools",
           quantity := "4", unit_price := "9.99", barcode := "012345678905" },
         { item_id := "B002", name := "Bolt", category := "Hardware",
           quantity := "2", unit_price := "1.50", barcode := "ABC123" }]
        (some "tools")) ∧
    items_to_process
        [{ item_id := "A001", name := "Widget", category := "Tools",
           quantity := "4", unit_price := "9.99", barcode := "012345678905" },
         { item_id := "B002", name := "Bolt", category := "Hardware",
           quantity := "2", unit_price := "1.50", barcode := "ABC123" }]
        (some "tools") =
      [{ item_id := "A001", name := "Widget", category := "Tools",
         quantity := "4", unit_price := "9.99", barcode := "012345678905" },
       { item_id := "B002", name := "Bolt", category := "Hardware",
         quantity := "2", unit_price := "1.50", barcode := "ABC123" }].filter
        (fun it => pyLower it.category == pyLower "tools") := by
  refine ⟨(C3_bulk_driver_properties _ (some "tools")).1, ?_⟩
  exact (C3_bulk_driver_properties
    [{ item_id := "A001", name := "Widget", category := "Tools",
       quantity := "4", unit_price := "9.99", barcode := "012345678905" },
     { item_id := "B002", name := "Bolt", category := "Hardware",
       quantity := "2", unit_price := "1.50", barcode := "ABC123" }]
    (some "tools")).2.1 "tools" rfl (by decide)

/-- C9: `bulk_generate_labels` returns `None` exactly when the filter step
selects no items (in particular for the empty catalog), never an empty path
list in that case; when at least one item is selected it returns the list of
successfully generated label paths. -/
theorem C9_none_iff_nothing_selected (items : List Item) (filt : Option String) :
    (bulk_generate_labels items filt = none ↔ items_to_process items filt = []) ∧
    (items_to_process items filt ≠ [] →
      bulk_generate_labels items filt =
        some ((items_to_process items filt).filterMap
          fun it => ((generate_label it).1).toOption)) := by
  by_cases h : (items_to_process items filt).length = 0
  · have hnil : items_to_process items filt = [] := List.length_eq_zero.mp h
    constructor
    · simp [bulk_generate_labels, h, hnil]
    · intro hc
      exact absurd hnil hc
  · have hne : items_to_process items filt ≠ [] := by
      intro hc
      rw [hc] at h
      exact h rfl
    constructor
    · simp [bulk_generate_labels, h, hne]
    · intro _
      simp only [bulk_generate_labels, h, if_false]
      rw [bulk_loop_eq]

/-- C9 witness: a one-item catalog with no filter returns the singleton path
list; the `None` case is characterized by the same theorem instance. -/
theorem C9_none_iff_nothing_selected_witness :
    (bulk_generate_labels
        [{ item_id := "A001", name := "Widget", category := "Tools",
           quantity := "4", unit_price := "9.99", barcode := "012345678905" }] none = none ↔
      items_to_process
        [{ item_id := "A001", name := "Widget", category := "Tools",
           quantity := "4", unit_price := "9.99", barcode := "012345678905" }] none = []) ∧
    bulk_generate_labels
        [{ item_id := "A001", name := "Widget", category := "Tools",
           quantity := "4", unit_price := "9.99", barcode := "012345678905" }] none =
      some ((items_to_process
          [{ item_id := "A001", name := "Widget", category := "Tools",
             quantity := "4", unit_price := "9.99", barcode := "012345678905" }] none).filterMap
        fun it => ((generate_label it).1).toOption) := by
  refine ⟨(C9_none_iff_nothing_selected _ none).1, ?_⟩
  exact (C9_none_iff_nothing_selected
    [{ item_id := "A001", name := "Widget", category := "Tools",
       quantity := "4", unit_price := "9.99", barcode := "012345678905" }] none).2 (by decide)

/-- Helper: `String.join` distributes over list append. -/
theorem join_append_str (a b : List String) :
    String.join (a ++ b) = String.join a ++ String.join b := by
  apply String.ext
  simp [String.join_eq, String.data_append]

/-- C6: the synthetic terminal bar pattern equals the deterministic
reference: the 3-glyph marker `"█ █"`, then for each character in order a run
of `1 + ((digit + hash) % 3)` filled glyphs followed by `1 + (digit % 2)`
blank glyphs — where `digit` is the character's numeric value for a digit and
its code point mod 10 otherwise, and `hash` is the sum of the code points of
the whole value — then the closing 3-glyph marker.  The pattern is a pure
function of the value, so two calls with the same value yield identical glyph
sequences. -/
theorem C6_bar_pattern_reference (s : String) :
    bar_pattern s =
      "█ █" ++
        String.join (s.data.map fun c =>
          String.mk (List.replicate (1 + ((charDigit c + hash_value s) % 3)) '█') ++
          String.mk (List.replicate (1 + (charDigit c % 2)) ' ')) ++
      "█ █" := by
  unfold bar_pattern
  rw [join_append_str, join_append_str]
  rfl

/-- C7: the raster downsample mode produces a grid of fixed dimensions
regardless of the source image's pixel size: 80 glyph columns in every row,
and 44 rows — the height derived from the aspect ratio of the intermediate
40×40 grid scaled by the 0.55 correction factor. -/
theorem C7_fixed_raster_dims (srcW srcH : Nat) (pixels : List Nat)
    (h : pixels.length = 80 * 44) :
    qr_display_dims srcW srcH = (80, 44) ∧
    (qr_grid pixels 80).length = 44 ∧
    ∀ row ∈ qr_grid pixels 80, row.length = 80 := by
  refine ⟨?_, ?_, ?_⟩
  · unfold qr_display_dims
    norm_num
    rfl
  · unfold qr_grid
    rw [List.length_map, List.length_map, List.length_range, h]
  · intro row hrow
    simp only [qr_grid, List.mem_map] at hrow
    obtain ⟨i, _, rfl⟩ := hrow
    simp only [qr_row, List.length_map, List.length_range]

/-- C7 witness: an all-black pixel buffer of the intermediate size yields the
fixed 80×44 grid. -/
theorem C7_fixed_raster_dims_witness :
    (List.replicate (80 * 44) 0).length = 80 * 44 ∧
    (qr_display_dims 370 370 = (80, 44) ∧
    (qr_grid (List.replicate (80 * 44) 0) 80).length = 44 ∧
    ∀ row ∈ qr_grid (List.replicate (80 * 44) 0) 80, row.length = 80) := by
  refine ⟨List.length_replicate (80 * 44) 0, ?_⟩
  exact C7_fixed_raster_dims 370 370 (List.replicate (80 * 44) 0)
    (List.length_replicate (80 * 44) 0)

/-- C8: thresholding a single-channel intensity (0..255) by integer division
with 128 always yields glyph index 0 or 1, so indexing the two-glyph table
never goes out of bounds and each pixel maps to exactly one of the two
glyphs; and every pixel index `i + j` formed from a row start `i = r * 80`
and a column `j < 80` lies within a buffer of length `80 * nh`. -/
theorem C8_threshold_and_index_bounds (pixels : List Nat) (p r j nh : Nat)
    (hp : p ≤ 255) (hr : r < nh) (hj : j < 80)
    (hlen : pixels.length = 80 * nh) :
    p / 128 < chars.length ∧
    (chars.getD (p / 128) "" = "  " ∨ chars.getD (p / 128) "" = "██") ∧
    r * 80 + j < pixels.length := by
  have hdiv : p / 128 = 0 ∨ p / 128 = 1 := by omega
  refine ⟨?_, ?_, ?_⟩
  · show p / 128 < 2
    omega
  · rcases hdiv with h0 | h1
    · left
      rw [h0]
      rfl
    · right
      rw [h1]
      rfl
  · rw [hlen]
    omega

/-- C8 witness: the extreme intensity 255 at the last pixel of the 80×44
buffer. -/
theorem C8_threshold_and_index_bounds_witness :
    (255 : Nat) ≤ 255 ∧ (43 : Nat) < 44 ∧ (79 : Nat) < 80 ∧
    (List.replicate (80 * 44) (0 : Nat)).length = 80 * 44 ∧
    ((255 : Nat) / 128 < chars.length ∧
    (chars.getD ((255 : Nat) / 128) "" = "  " ∨ chars.getD ((255 : Nat) / 128) "" = "██") ∧
    43 * 80 + 79 < (List.replicate (80 * 44) (0 : Nat)).length) := by
  refine ⟨by decide, by decide, by decide, List.length_replicate (80 * 44) 0, ?_⟩
  exact C8_threshold_and_index_bounds (List.replicate (80 * 44) 0) 255 43 79 44
    (by decide) (by decide) (by decide) (List.length_replicate (80 * 44) 0)
